import Mathlib

/-!
Verification of the configuration attribute bag (`Config`) of
`micropb-gen/src/config.rs`: the merge algebra (overlay vs. wholesale
replacement policies), the fluent setters, and the lazy string-to-fragment
conversions.

Machine integers (`u32`) only flow through the bag unmodified, so they are
embedded as `Nat`.  Rust panics (`unwrap()` on a parse failure, `todo!()`)
are embedded as the error side of `Except RsPanic`.
-/

/-- Mirrors `enum IntType` of `config.rs` (ten width/signedness variants). -/
inductive IntType
  | i8 | u8 | i16 | u16 | i32 | u32 | i64 | u64 | isize | usize
deriving DecidableEq, Repr

/-- Mirrors `enum CustomField` of `config.rs`: a raw string tagged either as a
full replacement type or as a delegate accessor name. -/
inductive CustomField
  | Type (s : String)
  | Delegate (s : String)
deriving DecidableEq, Repr

/-- Mirrors `struct Config` generated by `config_decl!` in `config.rs`:
sixteen independently optional attributes, declared in source order. -/
structure Config where
  max_len : Option Nat
  max_bytes : Option Nat
  int_type : Option IntType
  field_attributes : Option String
  boxed : Option Bool
  vec_type : Option String
  string_type : Option String
  map_type : Option String
  no_hazzer : Option Bool
  custom_field : Option CustomField
  rename_field : Option String
  enum_int_type : Option IntType
  type_attributes : Option String
  hazzer_attributes : Option String
  no_debug_derive : Option Bool
  skip : Option Bool
deriving DecidableEq, Repr

/-- Mirrors `Config::new`, i.e. `Self::default()` under `#[derive(Default)]`:
every `Option` field defaults to `None`. -/
def Config.new : Config :=
  ⟨none, none, none, none, none, none, none, none,
   none, none, none, none, none, none, none, none⟩

/-- The `@merge` arm of `config_decl!` for a field without `[no_inherit]`:
`if let Some(v) = &other.field { self.field = Some(v.clone()); }`. -/
def overlay {α : Type} (self other : Option α) : Option α :=
  match other with
  | some v => some v
  | none => self

/-- Mirrors `Config::merge(&mut self, other: &Self)` as a pure function: the
overlay arm for every field except `custom_field` and `rename_field`, which
are declared `[no_inherit]` and copied from `other` unconditionally. -/
def Config.merge (self other : Config) : Config :=
  { max_len := overlay self.max_len other.max_len
    max_bytes := overlay self.max_bytes other.max_bytes
    int_type := overlay self.int_type other.int_type
    field_attributes := overlay self.field_attributes other.field_attributes
    boxed := overlay self.boxed other.boxed
    vec_type := overlay self.vec_type other.vec_type
    string_type := overlay self.string_type other.string_type
    map_type := overlay self.map_type other.map_type
    no_hazzer := overlay self.no_hazzer other.no_hazzer
    custom_field := other.custom_field
    rename_field := other.rename_field
    enum_int_type := overlay self.enum_int_type other.enum_int_type
    type_attributes := overlay self.type_attributes other.type_attributes
    hazzer_attributes := overlay self.hazzer_attributes other.hazzer_attributes
    no_debug_derive := overlay self.no_debug_derive other.no_debug_derive
    skip := overlay self.skip other.skip }

/-- Setter `Config::max_len` (the `@setter` arm of `config_decl!`): consumes
the receiver, sets the one field to `Some(val)`, returns it.  Named with a
`with_` prefix because in Lean the field projection already owns the name. -/
def Config.with_max_len (c : Config) (val : Nat) : Config :=
  { c with max_len := some val }

/-- Setter `Config::max_bytes`. -/
def Config.with_max_bytes (c : Config) (val : Nat) : Config :=
  { c with max_bytes := some val }

/-- Setter `Config::int_type`. -/
def Config.with_int_type (c : Config) (val : IntType) : Config :=
  { c with int_type := some val }

/-- Setter `Config::field_attributes` (`[deref]` arm: stores the given string
verbatim via `s.to_owned()`). -/
def Config.with_field_attributes (c : Config) (s : String) : Config :=
  { c with field_attributes := some s }

/-- Setter `Config::boxed`. -/
def Config.with_boxed (c : Config) (val : Bool) : Config :=
  { c with boxed := some val }

/-- Setter `Config::vec_type` (`[deref]` arm, verbatim string). -/
def Config.with_vec_type (c : Config) (s : String) : Config :=
  { c with vec_type := some s }

/-- Setter `Config::string_type` (`[deref]` arm, verbatim string). -/
def Config.with_string_type (c : Config) (s : String) : Config :=
  { c with string_type := some s }

/-- Setter `Config::map_type` (`[deref]` arm, verbatim string). -/
def Config.with_map_type (c : Config) (s : String) : Config :=
  { c with map_type := some s }

/-- Setter `Config::no_hazzer`. -/
def Config.with_no_hazzer (c : Config) (val : Bool) : Config :=
  { c with no_hazzer := some val }

/-- Setter `Config::custom_field`. -/
def Config.with_custom_field (c : Config) (val : CustomField) : Config :=
  { c with custom_field := some val }

/-- Setter `Config::rename_field` (`[deref]` arm, verbatim string). -/
def Config.with_rename_field (c : Config) (s : String) : Config :=
  { c with rename_field := some s }

/-- Setter `Config::enum_int_type`. -/
def Config.with_enum_int_type (c : Config) (val : IntType) : Config :=
  { c with enum_int_type := some val }

/-- Setter `Config::type_attributes` (`[deref]` arm, verbatim string). -/
def Config.with_type_attributes (c : Config) (s : String) : Config :=
  { c with type_attributes := some s }

/-- Setter `Config::hazzer_attributes` (`[deref]` arm, verbatim string). -/
def Config.with_hazzer_attributes (c : Config) (s : String) : Config :=
  { c with hazzer_attributes := some s }

/-- Setter `Config::no_debug_derive`. -/
def Config.with_no_debug_derive (c : Config) (val : Bool) : Config :=
  { c with no_debug_derive := some val }

/-- Setter `Config::skip`. -/
def Config.with_skip (c : Config) (val : Bool) : Config :=
  { c with skip := some val }

/-!
Fragment conversion.  The source delegates string parsing to the external
`syn` crate, which is not part of this repository; the parsers below are
therefore modelled from the spec.  What IS taken from `config.rs` verbatim
is the control flow around them: `unwrap_or` defaulting, `Option::map`, and
the `.unwrap()` / `todo!()` panics, embedded as `Except RsPanic`.
-/

/-- A Rust panic, as raised by `.unwrap()` on a parse failure or by the
`todo!()` macro invocation. -/
inductive RsPanic
  | unwrapFailed
  | todoUnimplemented
deriving DecidableEq, Repr

/-- Stack-based delimiter balance check over a character list: `delims`
pairs each opening delimiter with its closer. -/
def balancedAux (delims : List (Char × Char)) : List Char → List Char → Bool
  | stack, [] => stack.isEmpty
  | stack, c :: rest =>
    match delims.find? (fun p => p.1 == c) with
    | some p => balancedAux delims (p.2 :: stack) rest
    | none =>
      if (delims.map Prod.snd).contains c then
        match stack with
        | [] => false
        | top :: stack2 => top == c && balancedAux delims stack2 rest
      else
        balancedAux delims stack rest

/-- Modelled from the spec: `syn::parse_str::<TokenStream>` (external `syn`
crate, used for the attribute-injection strings).  A string is a valid token
stream iff its `()`, `[]`, `\x7b\x7d` delimiters balance; the parsed fragment
is the string itself, the empty string parsing to the empty fragment. -/
def synParseTokens (s : String) : Option String :=
  if balancedAux [('(', ')'), ('[', ']'), ('\x7b', '\x7d')] [] s.toList then
    some s
  else
    none

/-- First character of a Rust identifier: alphabetic or underscore. -/
def isIdentStart (c : Char) : Bool :=
  c.isAlpha || c == '_'

/-- Continuation character of a Rust identifier: alphanumeric or underscore. -/
def isIdentCont (c : Char) : Bool :=
  c.isAlphanum || c == '_'

/-- A nonempty character list forming a Rust identifier: identifier-start
head, identifier-continuation tail. -/
def isIdentChars : List Char → Bool
  | [] => false
  | c :: rest => isIdentStart c && rest.all isIdentCont

/-- Modelled from the spec: validity predicate of `syn::parse_str::<Ident>`
(external `syn` crate): nonempty, identifier-start head, identifier
continuation tail. -/
def isRustIdent (s : String) : Bool :=
  isIdentChars s.toList

/-- Modelled from the spec: `syn::parse_str::<Ident>` (external `syn` crate,
used for `rename_field` and delegate names): succeeds on valid identifiers,
returning them unchanged. -/
def synParseIdent (s : String) : Option String :=
  if isRustIdent s then some s else none

/-- Splits a character list at every `::` separator, with fuel bounding the
recursion by the list length; `acc` accumulates the current segment in
reverse. -/
def splitSegsAux : Nat → List Char → List Char → List (List Char)
  | _, acc, [] => [acc.reverse]
  | 0, acc, _ => [acc.reverse]
  | fuel + 1, acc, ':' :: ':' :: rest => acc.reverse :: splitSegsAux fuel [] rest
  | fuel + 1, acc, c :: rest => splitSegsAux fuel (c :: acc) rest

/-- Segments of a string around `::` separators. -/
def splitSegs (s : String) : List (List Char) :=
  splitSegsAux s.toList.length [] s.toList

/-- Modelled from the spec: `syn::parse_str::<syn::Path>` (external `syn`
crate, used for the container-type overrides): a path is a nonempty
`::`-separated sequence of identifiers, returned as its segment list. -/
def synParsePath (s : String) : Option (List String) :=
  let segs := splitSegs s
  if segs.all isIdentChars then some (segs.map fun l => String.mk l) else none

/-- Modelled from the spec: `syn::parse_str::<syn::Type>` (external `syn`
crate, used for the custom-field replacement type): accepted iff nonempty
with balanced `()`, `[]`, `\x7b\x7d`, `<>` delimiters. -/
def synParseType (s : String) : Option String :=
  if s != "" &&
      balancedAux [('(', ')'), ('[', ']'), ('\x7b', '\x7d'), ('<', '>')] []
        s.toList then
    some s
  else
    none

/-- Mirrors `crate::generator::CustomField`, the typed counterpart of the raw
`CustomField`: a parsed replacement type or a parsed delegate identifier. -/
inductive GenCustomField
  | Type (t : String)
  | Delegate (i : String)
deriving DecidableEq, Repr

/-- Mirrors `Config::field_attr_parsed`:
`syn::parse_str(self.field_attributes.as_deref().unwrap_or("")).unwrap()`;
a parse failure makes the `.unwrap()` panic. -/
def Config.field_attr_parsed (c : Config) : Except RsPanic String :=
  match synParseTokens (c.field_attributes.getD "") with
  | some ts => .ok ts
  | none => .error .unwrapFailed

/-- Mirrors `Config::type_attr_parsed` (same shape over `type_attributes`). -/
def Config.type_attr_parsed (c : Config) : Except RsPanic String :=
  match synParseTokens (c.type_attributes.getD "") with
  | some ts => .ok ts
  | none => .error .unwrapFailed

/-- Mirrors `Config::hazzer_attr_parsed` (same shape over
`hazzer_attributes`). -/
def Config.hazzer_attr_parsed (c : Config) : Except RsPanic String :=
  match synParseTokens (c.hazzer_attributes.getD "") with
  | some ts => .ok ts
  | none => .error .unwrapFailed

/-- Mirrors `Config::rust_field_name`:
`syn::parse_str(self.rename_field.as_deref().unwrap_or(name)).unwrap()`. -/
def Config.rust_field_name (c : Config) (name : String) : Except RsPanic String :=
  match synParseIdent (c.rename_field.getD name) with
  | some i => .ok i
  | none => .error .unwrapFailed

/-- Mirrors `Config::vec_type_parsed`:
`self.vec_type.as_ref().map(|t| syn::parse_str(t).unwrap())` — absence maps
to `None`, a present string parses or panics. -/
def Config.vec_type_parsed (c : Config) : Except RsPanic (Option (List String)) :=
  match c.vec_type with
  | none => .ok none
  | some t =>
    match synParsePath t with
    | some p => .ok (some p)
    | none => .error .unwrapFailed

/-- Mirrors `Config::string_type_parsed` (same shape over `string_type`). -/
def Config.string_type_parsed (c : Config) : Except RsPanic (Option (List String)) :=
  match c.string_type with
  | none => .ok none
  | some t =>
    match synParsePath t with
    | some p => .ok (some p)
    | none => .error .unwrapFailed

/-- Mirrors `Config::map_type_parsed` (same shape over `map_type`). -/
def Config.map_type_parsed (c : Config) : Except RsPanic (Option (List String)) :=
  match c.map_type with
  | none => .ok none
  | some t =>
    match synParsePath t with
    | some p => .ok (some p)
    | none => .error .unwrapFailed

/-- Mirrors `Config::custom_field_parsed`: the `Type` variant parses its
string as a type, the `Delegate` variant as an identifier (each `.unwrap()`
panicking on failure), and the `None` arm executes `todo!()`, a panic. -/
def Config.custom_field_parsed (c : Config) : Except RsPanic (Option GenCustomField) :=
  match c.custom_field with
  | some (CustomField.Type s) =>
    match synParseType s with
    | some t => .ok (some (GenCustomField.Type t))
    | none => .error .unwrapFailed
  | some (CustomField.Delegate s) =>
    match synParseIdent s with
    | some i => .ok (some (GenCustomField.Delegate i))
    | none => .error .unwrapFailed
  | none => .error .todoUnimplemented

/-!
Theorems, one per claim.
-/

/-- Overlay restated through `isSome`: the result is `other` when present,
else `self`. -/
theorem overlay_eq_ite {α : Type} (a b : Option α) :
    overlay a b = if b.isSome then b else a := by
  cases b <;> rfl

/-- Overlay is associative. -/
theorem overlay_assoc {α : Type} (a b c : Option α) :
    overlay (overlay a b) c = overlay a (overlay b c) := by
  cases c <;> rfl

/-- A bag with every overlay-policy attribute present, used to exhibit that
no overlay attribute behaves wholesale. -/
def cfgAllSet : Config :=
  ⟨some 1, some 2, some IntType.i8, some "fa", some true, some "v",
   some "s", some "m", some true, some (CustomField.Type "T"), some "r",
   some IntType.u8, some "ta", some "ha", some true, some true⟩

/-- Claim C1: for every two Configs A and B and every overlay-policy
attribute X (every attribute except custom_field and rename_field), the
attribute X of `A.merge B` equals B's X when B's X is present, and otherwise
equals A's X. -/
theorem Config.merge_overlay_policy (A B : Config) :
    ((A.merge B).max_len = if (B.max_len).isSome then B.max_len else A.max_len) ∧
    ((A.merge B).max_bytes = if (B.max_bytes).isSome then B.max_bytes else A.max_bytes) ∧
    ((A.merge B).int_type = if (B.int_type).isSome then B.int_type else A.int_type) ∧
    ((A.merge B).field_attributes =
      if (B.field_attributes).isSome then B.field_attributes else A.field_attributes) ∧
    ((A.merge B).boxed = if (B.boxed).isSome then B.boxed else A.boxed) ∧
    ((A.merge B).vec_type = if (B.vec_type).isSome then B.vec_type else A.vec_type) ∧
    ((A.merge B).string_type =
      if (B.string_type).isSome then B.string_type else A.string_type) ∧
    ((A.merge B).map_type = if (B.map_type).isSome then B.map_type else A.map_type) ∧
    ((A.merge B).no_hazzer = if (B.no_hazzer).isSome then B.no_hazzer else A.no_hazzer) ∧
    ((A.merge B).enum_int_type =
      if (B.enum_int_type).isSome then B.enum_int_type else A.enum_int_type) ∧
    ((A.merge B).type_attributes =
      if (B.type_attributes).isSome then B.type_attributes else A.type_attributes) ∧
    ((A.merge B).hazzer_attributes =
      if (B.hazzer_attributes).isSome then B.hazzer_attributes else A.hazzer_attributes) ∧
    ((A.merge B).no_debug_derive =
      if (B.no_debug_derive).isSome then B.no_debug_derive else A.no_debug_derive) ∧
    ((A.merge B).skip = if (B.skip).isSome then B.skip else A.skip) := by
  simp [Config.merge, overlay_eq_ite]

/-- Claim C2: for every two Configs A and B, the two replace-wholesale
attributes custom_field and rename_field of `A.merge B` always equal B's,
including absence (B absent erases A's value); and no other attribute uses
this policy, witnessed per attribute by a merge where B's absent attribute
fails to overwrite A's present one. -/
theorem Config.merge_wholesale_policy :
    (∀ A B : Config,
      (A.merge B).custom_field = B.custom_field ∧
      (A.merge B).rename_field = B.rename_field) ∧
    ((cfgAllSet.merge Config.new).custom_field = none) ∧
    ((cfgAllSet.merge Config.new).rename_field = none) ∧
    ((cfgAllSet.merge Config.new).max_len ≠ Config.new.max_len) ∧
    ((cfgAllSet.merge Config.new).max_bytes ≠ Config.new.max_bytes) ∧
    ((cfgAllSet.merge Config.new).int_type ≠ Config.new.int_type) ∧
    ((cfgAllSet.merge Config.new).field_attributes ≠ Config.new.field_attributes) ∧
    ((cfgAllSet.merge Config.new).boxed ≠ Config.new.boxed) ∧
    ((cfgAllSet.merge Config.new).vec_type ≠ Config.new.vec_type) ∧
    ((cfgAllSet.merge Config.new).string_type ≠ Config.new.string_type) ∧
    ((cfgAllSet.merge Config.new).map_type ≠ Config.new.map_type) ∧
    ((cfgAllSet.merge Config.new).no_hazzer ≠ Config.new.no_hazzer) ∧
    ((cfgAllSet.merge Config.new).enum_int_type ≠ Config.new.enum_int_type) ∧
    ((cfgAllSet.merge Config.new).type_attributes ≠ Config.new.type_attributes) ∧
    ((cfgAllSet.merge Config.new).hazzer_attributes ≠ Config.new.hazzer_attributes) ∧
    ((cfgAllSet.merge Config.new).no_debug_derive ≠ Config.new.no_debug_derive) ∧
    ((cfgAllSet.merge Config.new).skip ≠ Config.new.skip) :=
  ⟨fun _ _ => ⟨rfl, rfl⟩, rfl, rfl,
   by decide, by decide, by decide, by decide, by decide, by decide,
   by decide, by decide, by decide, by decide, by decide, by decide,
   by decide, by decide⟩

/-- Claim C3: Config merge is associative: `(A.merge B).merge C` equals
`A.merge (B.merge C)` attribute-wise, hence as whole Configs. -/
theorem Config.merge_assoc (A B C : Config) :
    (A.merge B).merge C = A.merge (B.merge C) := by
  simp [Config.merge, overlay_assoc]

/-- Claim C7: `Config::new()` returns a bag in which every one of the
sixteen attributes is absent. -/
theorem Config.new_all_absent :
    Config.new.max_len = none ∧ Config.new.max_bytes = none ∧
    Config.new.int_type = none ∧ Config.new.field_attributes = none ∧
    Config.new.boxed = none ∧ Config.new.vec_type = none ∧
    Config.new.string_type = none ∧ Config.new.map_type = none ∧
    Config.new.no_hazzer = none ∧ Config.new.custom_field = none ∧
    Config.new.rename_field = none ∧ Config.new.enum_int_type = none ∧
    Config.new.type_attributes = none ∧ Config.new.hazzer_attributes = none ∧
    Config.new.no_debug_derive = none ∧ Config.new.skip = none :=
  ⟨rfl, rfl, rfl, rfl, rfl, rfl, rfl, rfl,
   rfl, rfl, rfl, rfl, rfl, rfl, rfl, rfl⟩

set_option maxRecDepth 8192 in
/-- Claim C8: every per-attribute setter returns a Config whose named
attribute is present with exactly the given value (strings stored verbatim)
and whose every other attribute is unchanged from the receiver. -/
theorem Config.setter_frame (c : Config) (n1 : Nat) (n2 : Nat) (t1 : IntType) (s1 : String) (b1 : Bool) (s2 : String) (s3 : String) (s4 : String) (b2 : Bool) (cf : CustomField) (s5 : String) (t2 : IntType) (s6 : String) (s7 : String) (b3 : Bool) (b4 : Bool) :
    ((c.with_max_len n1).max_len = some n1) ∧
    ((c.with_max_len n1).max_bytes = c.max_bytes) ∧
    ((c.with_max_len n1).int_type = c.int_type) ∧
    ((c.with_max_len n1).field_attributes = c.field_attributes) ∧
    ((c.with_max_len n1).boxed = c.boxed) ∧
    ((c.with_max_len n1).vec_type = c.vec_type) ∧
    ((c.with_max_len n1).string_type = c.string_type) ∧
    ((c.with_max_len n1).map_type = c.map_type) ∧
    ((c.with_max_len n1).no_hazzer = c.no_hazzer) ∧
    ((c.with_max_len n1).custom_field = c.custom_field) ∧
    ((c.with_max_len n1).rename_field = c.rename_field) ∧
    ((c.with_max_len n1).enum_int_type = c.enum_int_type) ∧
    ((c.with_max_len n1).type_attributes = c.type_attributes) ∧
    ((c.with_max_len n1).hazzer_attributes = c.hazzer_attributes) ∧
    ((c.with_max_len n1).no_debug_derive = c.no_debug_derive) ∧
    ((c.with_max_len n1).skip = c.skip) ∧
    ((c.with_max_bytes n2).max_bytes = some n2) ∧
    ((c.with_max_bytes n2).max_len = c.max_len) ∧
    ((c.with_max_bytes n2).int_type = c.int_type) ∧
    ((c.with_max_bytes n2).field_attributes = c.field_attributes) ∧
    ((c.with_max_bytes n2).boxed = c.boxed) ∧
    ((c.with_max_bytes n2).vec_type = c.vec_type) ∧
    ((c.with_max_bytes n2).string_type = c.string_type) ∧
    ((c.with_max_bytes n2).map_type = c.map_type) ∧
    ((c.with_max_bytes n2).no_hazzer = c.no_hazzer) ∧
    ((c.with_max_bytes n2).custom_field = c.custom_field) ∧
    ((c.with_max_bytes n2).rename_field = c.rename_field) ∧
    ((c.with_max_bytes n2).enum_int_type = c.enum_int_type) ∧
    ((c.with_max_bytes n2).type_attributes = c.type_attributes) ∧
    ((c.with_max_bytes n2).hazzer_attributes = c.hazzer_attributes) ∧
    ((c.with_max_bytes n2).no_debug_derive = c.no_debug_derive) ∧
    ((c.with_max_bytes n2).skip = c.skip) ∧
    ((c.with_int_type t1).int_type = some t1) ∧
    ((c.with_int_type t1).max_len = c.max_len) ∧
    ((c.with_int_type t1).max_bytes = c.max_bytes) ∧
    ((c.with_int_type t1).field_attributes = c.field_attributes) ∧
    ((c.with_int_type t1).boxed = c.boxed) ∧
    ((c.with_int_type t1).vec_type = c.vec_type) ∧
    ((c.with_int_type t1).string_type = c.string_type) ∧
    ((c.with_int_type t1).map_type = c.map_type) ∧
    ((c.with_int_type t1).no_hazzer = c.no_hazzer) ∧
    ((c.with_int_type t1).custom_field = c.custom_field) ∧
    ((c.with_int_type t1).rename_field = c.rename_field) ∧
    ((c.with_int_type t1).enum_int_type = c.enum_int_type) ∧
    ((c.with_int_type t1).type_attributes = c.type_attributes) ∧
    ((c.with_int_type t1).hazzer_attributes = c.hazzer_attributes) ∧
    ((c.with_int_type t1).no_debug_derive = c.no_debug_derive) ∧
    ((c.with_int_type t1).skip = c.skip) ∧
    ((c.with_field_attributes s1).field_attributes = some s1) ∧
    ((c.with_field_attributes s1).max_len = c.max_len) ∧
    ((c.with_field_attributes s1).max_bytes = c.max_bytes) ∧
    ((c.with_field_attributes s1).int_type = c.int_type) ∧
    ((c.with_field_attributes s1).boxed = c.boxed) ∧
    ((c.with_field_attributes s1).vec_type = c.vec_type) ∧
    ((c.with_field_attributes s1).string_type = c.string_type) ∧
    ((c.with_field_attributes s1).map_type = c.map_type) ∧
    ((c.with_field_attributes s1).no_hazzer = c.no_hazzer) ∧
    ((c.with_field_attributes s1).custom_field = c.custom_field) ∧
    ((c.with_field_attributes s1).rename_field = c.rename_field) ∧
    ((c.with_field_attributes s1).enum_int_type = c.enum_int_type) ∧
    ((c.with_field_attributes s1).type_attributes = c.type_attributes) ∧
    ((c.with_field_attributes s1).hazzer_attributes = c.hazzer_attributes) ∧
    ((c.with_field_attributes s1).no_debug_derive = c.no_debug_derive) ∧
    ((c.with_field_attributes s1).skip = c.skip) ∧
    ((c.with_boxed b1).boxed = some b1) ∧
    ((c.with_boxed b1).max_len = c.max_len) ∧
    ((c.with_boxed b1).max_bytes = c.max_bytes) ∧
    ((c.with_boxed b1).int_type = c.int_type) ∧
    ((c.with_boxed b1).field_attributes = c.field_attributes) ∧
    ((c.with_boxed b1).vec_type = c.vec_type) ∧
    ((c.with_boxed b1).string_type = c.string_type) ∧
    ((c.with_boxed b1).map_type = c.map_type) ∧
    ((c.with_boxed b1).no_hazzer = c.no_hazzer) ∧
    ((c.with_boxed b1).custom_field = c.custom_field) ∧
    ((c.with_boxed b1).rename_field = c.rename_field) ∧
    ((c.with_boxed b1).enum_int_type = c.enum_int_type) ∧
    ((c.with_boxed b1).type_attributes = c.type_attributes) ∧
    ((c.with_boxed b1).hazzer_attributes = c.hazzer_attributes) ∧
    ((c.with_boxed b1).no_debug_derive = c.no_debug_derive) ∧
    ((c.with_boxed b1).skip = c.skip) ∧
    ((c.with_vec_type s2).vec_type = some s2) ∧
    ((c.with_vec_type s2).max_len = c.max_len) ∧
    ((c.with_vec_type s2).max_bytes = c.max_bytes) ∧
    ((c.with_vec_type s2).int_type = c.int_type) ∧
    ((c.with_vec_type s2).field_attributes = c.field_attributes) ∧
    ((c.with_vec_type s2).boxed = c.boxed) ∧
    ((c.with_vec_type s2).string_type = c.string_type) ∧
    ((c.with_vec_type s2).map_type = c.map_type) ∧
    ((c.with_vec_type s2).no_hazzer = c.no_hazzer) ∧
    ((c.with_vec_type s2).custom_field = c.custom_field) ∧
    ((c.with_vec_type s2).rename_field = c.rename_field) ∧
    ((c.with_vec_type s2).enum_int_type = c.enum_int_type) ∧
    ((c.with_vec_type s2).type_attributes = c.type_attributes) ∧
    ((c.with_vec_type s2).hazzer_attributes = c.hazzer_attributes) ∧
    ((c.with_vec_type s2).no_debug_derive = c.no_debug_derive) ∧
    ((c.with_vec_type s2).skip = c.skip) ∧
    ((c.with_string_type s3).string_type = some s3) ∧
    ((c.with_string_type s3).max_len = c.max_len) ∧
    ((c.with_string_type s3).max_bytes = c.max_bytes) ∧
    ((c.with_string_type s3).int_type = c.int_type) ∧
    ((c.with_string_type s3).field_attributes = c.field_attributes) ∧
    ((c.with_string_type s3).boxed = c.boxed) ∧
    ((c.with_string_type s3).vec_type = c.vec_type) ∧
    ((c.with_string_type s3).map_type = c.map_type) ∧
    ((c.with_string_type s3).no_hazzer = c.no_hazzer) ∧
    ((c.with_string_type s3).custom_field = c.custom_field) ∧
    ((c.with_string_type s3).rename_field = c.rename_field) ∧
    ((c.with_string_type s3).enum_int_type = c.enum_int_type) ∧
    ((c.with_string_type s3).type_attributes = c.type_attributes) ∧
    ((c.with_string_type s3).hazzer_attributes = c.hazzer_attributes) ∧
    ((c.with_string_type s3).no_debug_derive = c.no_debug_derive) ∧
    ((c.with_string_type s3).skip = c.skip) ∧
    ((c.with_map_type s4).map_type = some s4) ∧
    ((c.with_map_type s4).max_len = c.max_len) ∧
    ((c.with_map_type s4).max_bytes = c.max_bytes) ∧
    ((c.with_map_type s4).int_type = c.int_type) ∧
    ((c.with_map_type s4).field_attributes = c.field_attributes) ∧
    ((c.with_map_type s4).boxed = c.boxed) ∧
    ((c.with_map_type s4).vec_type = c.vec_type) ∧
    ((c.with_map_type s4).string_type = c.string_type) ∧
    ((c.with_map_type s4).no_hazzer = c.no_hazzer) ∧
    ((c.with_map_type s4).custom_field = c.custom_field) ∧
    ((c.with_map_type s4).rename_field = c.rename_field) ∧
    ((c.with_map_type s4).enum_int_type = c.enum_int_type) ∧
    ((c.with_map_type s4).type_attributes = c.type_attributes) ∧
    ((c.with_map_type s4).hazzer_attributes = c.hazzer_attributes) ∧
    ((c.with_map_type s4).no_debug_derive = c.no_debug_derive) ∧
    ((c.with_map_type s4).skip = c.skip) ∧
    ((c.with_no_hazzer b2).no_hazzer = some b2) ∧
    ((c.with_no_hazzer b2).max_len = c.max_len) ∧
    ((c.with_no_hazzer b2).max_bytes = c.max_bytes) ∧
    ((c.with_no_hazzer b2).int_type = c.int_type) ∧
    ((c.with_no_hazzer b2).field_attributes = c.field_attributes) ∧
    ((c.with_no_hazzer b2).boxed = c.boxed) ∧
    ((c.with_no_hazzer b2).vec_type = c.vec_type) ∧
    ((c.with_no_hazzer b2).string_type = c.string_type) ∧
    ((c.with_no_hazzer b2).map_type = c.map_type) ∧
    ((c.with_no_hazzer b2).custom_field = c.custom_field) ∧
    ((c.with_no_hazzer b2).rename_field = c.rename_field) ∧
    ((c.with_no_hazzer b2).enum_int_type = c.enum_int_type) ∧
    ((c.with_no_hazzer b2).type_attributes = c.type_attributes) ∧
    ((c.with_no_hazzer b2).hazzer_attributes = c.hazzer_attributes) ∧
    ((c.with_no_hazzer b2).no_debug_derive = c.no_debug_derive) ∧
    ((c.with_no_hazzer b2).skip = c.skip) ∧
    ((c.with_custom_field cf).custom_field = some cf) ∧
    ((c.with_custom_field cf).max_len = c.max_len) ∧
    ((c.with_custom_field cf).max_bytes = c.max_bytes) ∧
    ((c.with_custom_field cf).int_type = c.int_type) ∧
    ((c.with_custom_field cf).field_attributes = c.field_attributes) ∧
    ((c.with_custom_field cf).boxed = c.boxed) ∧
    ((c.with_custom_field cf).vec_type = c.vec_type) ∧
    ((c.with_custom_field cf).string_type = c.string_type) ∧
    ((c.with_custom_field cf).map_type = c.map_type) ∧
    ((c.with_custom_field cf).no_hazzer = c.no_hazzer) ∧
    ((c.with_custom_field cf).rename_field = c.rename_field) ∧
    ((c.with_custom_field cf).enum_int_type = c.enum_int_type) ∧
    ((c.with_custom_field cf).type_attributes = c.type_attributes) ∧
    ((c.with_custom_field cf).hazzer_attributes = c.hazzer_attributes) ∧
    ((c.with_custom_field cf).no_debug_derive = c.no_debug_derive) ∧
    ((c.with_custom_field cf).skip = c.skip) ∧
    ((c.with_rename_field s5).rename_field = some s5) ∧
    ((c.with_rename_field s5).max_len = c.max_len) ∧
    ((c.with_rename_field s5).max_bytes = c.max_bytes) ∧
    ((c.with_rename_field s5).int_type = c.int_type) ∧
    ((c.with_rename_field s5).field_attributes = c.field_attributes) ∧
    ((c.with_rename_field s5).boxed = c.boxed) ∧
    ((c.with_rename_field s5).vec_type = c.vec_type) ∧
    ((c.with_rename_field s5).string_type = c.string_type) ∧
    ((c.with_rename_field s5).map_type = c.map_type) ∧
    ((c.with_rename_field s5).no_hazzer = c.no_hazzer) ∧
    ((c.with_rename_field s5).custom_field = c.custom_field) ∧
    ((c.with_rename_field s5).enum_int_type = c.enum_int_type) ∧
    ((c.with_rename_field s5).type_attributes = c.type_attributes) ∧
    ((c.with_rename_field s5).hazzer_attributes = c.hazzer_attributes) ∧
    ((c.with_rename_field s5).no_debug_derive = c.no_debug_derive) ∧
    ((c.with_rename_field s5).skip = c.skip) ∧
    ((c.with_enum_int_type t2).enum_int_type = some t2) ∧
    ((c.with_enum_int_type t2).max_len = c.max_len) ∧
    ((c.with_enum_int_type t2).max_bytes = c.max_bytes) ∧
    ((c.with_enum_int_type t2).int_type = c.int_type) ∧
    ((c.with_enum_int_type t2).field_attributes = c.field_attributes) ∧
    ((c.with_enum_int_type t2).boxed = c.boxed) ∧
    ((c.with_enum_int_type t2).vec_type = c.vec_type) ∧
    ((c.with_enum_int_type t2).string_type = c.string_type) ∧
    ((c.with_enum_int_type t2).map_type = c.map_type) ∧
    ((c.with_enum_int_type t2).no_hazzer = c.no_hazzer) ∧
    ((c.with_enum_int_type t2).custom_field = c.custom_field) ∧
    ((c.with_enum_int_type t2).rename_field = c.rename_field) ∧
    ((c.with_enum_int_type t2).type_attributes = c.type_attributes) ∧
    ((c.with_enum_int_type t2).hazzer_attributes = c.hazzer_attributes) ∧
    ((c.with_enum_int_type t2).no_debug_derive = c.no_debug_derive) ∧
    ((c.with_enum_int_type t2).skip = c.skip) ∧
    ((c.with_type_attributes s6).type_attributes = some s6) ∧
    ((c.with_type_attributes s6).max_len = c.max_len) ∧
    ((c.with_type_attributes s6).max_bytes = c.max_bytes) ∧
    ((c.with_type_attributes s6).int_type = c.int_type) ∧
    ((c.with_type_attributes s6).field_attributes = c.field_attributes) ∧
    ((c.with_type_attributes s6).boxed = c.boxed) ∧
    ((c.with_type_attributes s6).vec_type = c.vec_type) ∧
    ((c.with_type_attributes s6).string_type = c.string_type) ∧
    ((c.with_type_attributes s6).map_type = c.map_type) ∧
    ((c.with_type_attributes s6).no_hazzer = c.no_hazzer) ∧
    ((c.with_type_attributes s6).custom_field = c.custom_field) ∧
    ((c.with_type_attributes s6).rename_field = c.rename_field) ∧
    ((c.with_type_attributes s6).enum_int_type = c.enum_int_type) ∧
    ((c.with_type_attributes s6).hazzer_attributes = c.hazzer_attributes) ∧
    ((c.with_type_attributes s6).no_debug_derive = c.no_debug_derive) ∧
    ((c.with_type_attributes s6).skip = c.skip) ∧
    ((c.with_hazzer_attributes s7).hazzer_attributes = some s7) ∧
    ((c.with_hazzer_attributes s7).max_len = c.max_len) ∧
    ((c.with_hazzer_attributes s7).max_bytes = c.max_bytes) ∧
    ((c.with_hazzer_attributes s7).int_type = c.int_type) ∧
    ((c.with_hazzer_attributes s7).field_attributes = c.field_attributes) ∧
    ((c.with_hazzer_attributes s7).boxed = c.boxed) ∧
    ((c.with_hazzer_attributes s7).vec_type = c.vec_type) ∧
    ((c.with_hazzer_attributes s7).string_type = c.string_type) ∧
    ((c.with_hazzer_attributes s7).map_type = c.map_type) ∧
    ((c.with_hazzer_attributes s7).no_hazzer = c.no_hazzer) ∧
    ((c.with_hazzer_attributes s7).custom_field = c.custom_field) ∧
    ((c.with_hazzer_attributes s7).rename_field = c.rename_field) ∧
    ((c.with_hazzer_attributes s7).enum_int_type = c.enum_int_type) ∧
    ((c.with_hazzer_attributes s7).type_attributes = c.type_attributes) ∧
    ((c.with_hazzer_attributes s7).no_debug_derive = c.no_debug_derive) ∧
    ((c.with_hazzer_attributes s7).skip = c.skip) ∧
    ((c.with_no_debug_derive b3).no_debug_derive = some b3) ∧
    ((c.with_no_debug_derive b3).max_len = c.max_len) ∧
    ((c.with_no_debug_derive b3).max_bytes = c.max_bytes) ∧
    ((c.with_no_debug_derive b3).int_type = c.int_type) ∧
    ((c.with_no_debug_derive b3).field_attributes = c.field_attributes) ∧
    ((c.with_no_debug_derive b3).boxed = c.boxed) ∧
    ((c.with_no_debug_derive b3).vec_type = c.vec_type) ∧
    ((c.with_no_debug_derive b3).string_type = c.string_type) ∧
    ((c.with_no_debug_derive b3).map_type = c.map_type) ∧
    ((c.with_no_debug_derive b3).no_hazzer = c.no_hazzer) ∧
    ((c.with_no_debug_derive b3).custom_field = c.custom_field) ∧
    ((c.with_no_debug_derive b3).rename_field = c.rename_field) ∧
    ((c.with_no_debug_derive b3).enum_int_type = c.enum_int_type) ∧
    ((c.with_no_debug_derive b3).type_attributes = c.type_attributes) ∧
    ((c.with_no_debug_derive b3).hazzer_attributes = c.hazzer_attributes) ∧
    ((c.with_no_debug_derive b3).skip = c.skip) ∧
    ((c.with_skip b4).skip = some b4) ∧
    ((c.with_skip b4).max_len = c.max_len) ∧
    ((c.with_skip b4).max_bytes = c.max_bytes) ∧
    ((c.with_skip b4).int_type = c.int_type) ∧
    ((c.with_skip b4).field_attributes = c.field_attributes) ∧
    ((c.with_skip b4).boxed = c.boxed) ∧
    ((c.with_skip b4).vec_type = c.vec_type) ∧
    ((c.with_skip b4).string_type = c.string_type) ∧
    ((c.with_skip b4).map_type = c.map_type) ∧
    ((c.with_skip b4).no_hazzer = c.no_hazzer) ∧
    ((c.with_skip b4).custom_field = c.custom_field) ∧
    ((c.with_skip b4).rename_field = c.rename_field) ∧
    ((c.with_skip b4).enum_int_type = c.enum_int_type) ∧
    ((c.with_skip b4).type_attributes = c.type_attributes) ∧
    ((c.with_skip b4).hazzer_attributes = c.hazzer_attributes) ∧
    ((c.with_skip b4).no_debug_derive = c.no_debug_derive) :=
  ⟨rfl, rfl, rfl, rfl, rfl, rfl, rfl, rfl, rfl, rfl, rfl, rfl, rfl, rfl, rfl, rfl, rfl, rfl, rfl, rfl, rfl, rfl, rfl, rfl, rfl, rfl, rfl, rfl, rfl, rfl, rfl, rfl, rfl, rfl, rfl, rfl, rfl, rfl, rfl, rfl, rfl, rfl, rfl, rfl, rfl, rfl, rfl, rfl, rfl, rfl, rfl, rfl, rfl, rfl, rfl, rfl, rfl, rfl, rfl, rfl, rfl, rfl, rfl, rfl, rfl, rfl, rfl, rfl, rfl, rfl, rfl, rfl, rfl, rfl, rfl, rfl, rfl, rfl, rfl, rfl, rfl, rfl, rfl, rfl, rfl, rfl, rfl, rfl, rfl, rfl, rfl, rfl, rfl, rfl, rfl, rfl, rfl, rfl, rfl, rfl, rfl, rfl, rfl, rfl, rfl, rfl, rfl, rfl, rfl, rfl, rfl, rfl, rfl, rfl, rfl, rfl, rfl, rfl, rfl, rfl, rfl, rfl, rfl, rfl, rfl, rfl, rfl, rfl, rfl, rfl, rfl, rfl, rfl, rfl, rfl, rfl, rfl, rfl, rfl, rfl, rfl, rfl, rfl, rfl, rfl, rfl, rfl, rfl, rfl, rfl, rfl, rfl, rfl, rfl, rfl, rfl, rfl, rfl, rfl, rfl, rfl, rfl, rfl, rfl, rfl, rfl, rfl, rfl, rfl, rfl, rfl, rfl, rfl, rfl, rfl, rfl, rfl, rfl, rfl, rfl, rfl, rfl, rfl, rfl, rfl, rfl, rfl, rfl, rfl, rfl, rfl, rfl, rfl, rfl, rfl, rfl, rfl, rfl, rfl, rfl, rfl, rfl, rfl, rfl, rfl, rfl, rfl, rfl, rfl, rfl, rfl, rfl, rfl, rfl, rfl, rfl, rfl, rfl, rfl, rfl, rfl, rfl, rfl, rfl, rfl, rfl, rfl, rfl, rfl, rfl, rfl, rfl, rfl, rfl, rfl, rfl, rfl, rfl, rfl, rfl, rfl, rfl, rfl, rfl, rfl, rfl, rfl, rfl, rfl, rfl, rfl, rfl, rfl, rfl, rfl, rfl⟩

/-- Claim C4 (code divergence): on a malformed override string every
typed-fragment conversion hits the source's `.unwrap()` and panics, rather
than returning a MalformedOverride error; evaluated at concrete malformed
overrides of every target kind. -/
theorem Config.malformed_override_panics :
    (Config.new.with_field_attributes "(").field_attr_parsed
      = Except.error RsPanic.unwrapFailed ∧
    (Config.new.with_type_attributes "[").type_attr_parsed
      = Except.error RsPanic.unwrapFailed ∧
    (Config.new.with_hazzer_attributes ")").hazzer_attr_parsed
      = Except.error RsPanic.unwrapFailed ∧
    (Config.new.with_vec_type "not<<valid").vec_type_parsed
      = Except.error RsPanic.unwrapFailed ∧
    (Config.new.with_string_type "not<<valid").string_type_parsed
      = Except.error RsPanic.unwrapFailed ∧
    (Config.new.with_map_type "not<<valid").map_type_parsed
      = Except.error RsPanic.unwrapFailed ∧
    (Config.new.with_rename_field "1bad").rust_field_name "x"
      = Except.error RsPanic.unwrapFailed ∧
    (Config.new.with_custom_field (CustomField.Type "<")).custom_field_parsed
      = Except.error RsPanic.unwrapFailed ∧
    (Config.new.with_custom_field (CustomField.Delegate "1bad")).custom_field_parsed
      = Except.error RsPanic.unwrapFailed :=
  ⟨rfl, rfl, rfl, rfl, rfl, rfl, rfl, rfl, rfl⟩

/-- Claim C5 (code divergence): with custom_field absent, the source's
`custom_field_parsed` executes `todo!()` — a panic — instead of returning a
MissingCustomField error; with custom_field present it does return the
corresponding typed variant. -/
theorem Config.custom_field_parsed_todo_on_absent :
    Config.new.custom_field_parsed = Except.error RsPanic.todoUnimplemented ∧
    (Config.new.with_custom_field (CustomField.Type "MyType")).custom_field_parsed
      = Except.ok (some (GenCustomField.Type "MyType")) ∧
    (Config.new.with_custom_field (CustomField.Delegate "del")).custom_field_parsed
      = Except.ok (some (GenCustomField.Delegate "del")) :=
  ⟨rfl, rfl, rfl⟩

/-- Claim C6 (amended): with rename_field absent, `rust_field_name` returns
the original supplied name for every name that is a valid identifier (on
other names the source's `.unwrap()` panics, refuting the unrestricted
claim); and on the fully-default Config every attribute-injection conversion
yields the empty fragment. -/
theorem Config.rename_absent_falls_back (c : Config) (name : String)
    (hr : c.rename_field = none) (hn : isRustIdent name = true) :
    c.rust_field_name name = Except.ok name ∧
    Config.new.field_attr_parsed = Except.ok "" ∧
    Config.new.type_attr_parsed = Except.ok "" ∧
    Config.new.hazzer_attr_parsed = Except.ok "" := by
  refine ⟨?_, rfl, rfl, rfl⟩
  simp [Config.rust_field_name, hr, synParseIdent, hn]

/-- Witness for C6: the fallback applied at the default Config and the
concrete name "orig". -/
theorem Config.rename_absent_falls_back_witness :
    (Config.new.rename_field = none ∧ isRustIdent "orig" = true) ∧
    Config.new.rust_field_name "orig" = Except.ok "orig" :=
  ⟨⟨rfl, by decide⟩,
   (Config.rename_absent_falls_back Config.new "orig" rfl (by decide)).1⟩

/-- Claim C9: merge and every setter are total (their embeddings are total
functions into Config, mirroring the panic-free source bodies), and the
string setters accept and store arbitrary unvalidated strings verbatim,
shown for an arbitrary string at every string-valued setter. -/
theorem Config.merge_and_setters_total (A B : Config) (s : String) :
    (∃ C : Config, A.merge B = C) ∧
    (A.with_field_attributes s).field_attributes = some s ∧
    (A.with_vec_type s).vec_type = some s ∧
    (A.with_string_type s).string_type = some s ∧
    (A.with_map_type s).map_type = some s ∧
    (A.with_rename_field s).rename_field = some s ∧
    (A.with_type_attributes s).type_attributes = some s ∧
    (A.with_hazzer_attributes s).hazzer_attributes = some s :=
  ⟨⟨A.merge B, rfl⟩, rfl, rfl, rfl, rfl, rfl, rfl, rfl⟩

/-- Claim C10: when vec_type (resp. string_type, map_type) is absent, the
corresponding conversion returns an absent result — `Ok(None)`, neither an
error nor a default type reference. -/
theorem Config.container_absent_parses_none (c : Config) :
    (c.vec_type = none → c.vec_type_parsed = Except.ok none) ∧
    (c.string_type = none → c.string_type_parsed = Except.ok none) ∧
    (c.map_type = none → c.map_type_parsed = Except.ok none) := by
  refine ⟨fun h => ?_, fun h => ?_, fun h => ?_⟩ <;>
    simp [Config.vec_type_parsed, Config.string_type_parsed,
      Config.map_type_parsed, h]

/-- Witness for C10: absence propagation evaluated at the default Config. -/
theorem Config.container_absent_parses_none_witness :
    (Config.new.vec_type = none ∧ Config.new.string_type = none ∧
      Config.new.map_type = none) ∧
    (Config.new.vec_type_parsed = Except.ok none ∧
     Config.new.string_type_parsed = Except.ok none ∧
     Config.new.map_type_parsed = Except.ok none) :=
  ⟨⟨rfl, rfl, rfl⟩,
   ⟨(Config.container_absent_parses_none Config.new).1 rfl,
    (Config.container_absent_parses_none Config.new).2.1 rfl,
    (Config.container_absent_parses_none Config.new).2.2 rfl⟩⟩

/-- Counterexample to claim C6 as frozen: at the non-identifier name "1bad"
(with rename_field absent), `rust_field_name` hits the source's `.unwrap()`
and panics instead of returning the supplied name. -/
theorem Config.rename_fallback_counterexample :
    Config.new.rust_field_name "1bad" = Except.error RsPanic.unwrapFailed ∧
    Config.new.rust_field_name "1bad" ≠ Except.ok "1bad" := by
  refine ⟨rfl, ?_⟩
  intro h
  rw [show Config.new.rust_field_name "1bad"
        = Except.error RsPanic.unwrapFailed from rfl] at h
  exact Except.noConfusion h
